import Mathlib

/-!
Verification of the subscription-lifecycle engine of the Disguise LiveUpdate
Companion module (`src/index.ts`), shallowly embedded in Lean.

JavaScript `Map`s are embedded as insertion-ordered association lists with
`Map.get`/`Map.set`/`Map.delete` semantics.  JSON values are embedded as the
inductive `JVal`; JavaScript `undefined` is conflated with `null` where only
truthiness or the `x !== null && x !== undefined` guard matters.  Timer
scheduling and logging are not modelled; the WebSocket is modelled by a
`wsOpen` flag and a `sendThrows` flag (whether `ws.send` raises), and each
operation returns, alongside the new state, the list of frames handed to the
socket and the list of `setVariableValues` writes it performs.
-/

/-- A JSON value, as produced by `JSON.parse` on an incoming frame.  Numbers
are modelled as integers (the claims under verification do not depend on
non-integral numerics). -/
inductive JVal where
  | null : JVal
  | bool : Bool → JVal
  | num : Int → JVal
  | str : String → JVal
  | arr : List JVal → JVal
  | obj : List (String × JVal) → JVal

/-- `Map.get` on an insertion-ordered association list. -/
def mget {K V : Type} [DecidableEq K] : List (K × V) → K → Option V
  | [], _ => none
  | (k', v) :: rest, k => if k' = k then some v else mget rest k

/-- `Map.set`: update the existing entry in place, else append. -/
def mset {K V : Type} [DecidableEq K] : List (K × V) → K → V → List (K × V)
  | [], k, v => [(k, v)]
  | (k', v') :: rest, k, v =>
      if k' = k then (k, v) :: rest else (k', v') :: mset rest k v

/-- `Map.delete`. -/
def mdel {K V : Type} [DecidableEq K] : List (K × V) → K → List (K × V)
  | [], _ => []
  | (k', v) :: rest, k =>
      if k' = k then mdel rest k else (k', v) :: mdel rest k

/-- JavaScript truthiness of a `JVal` (`NaN` not modelled). -/
def truthy : JVal → Bool
  | JVal.null => false
  | JVal.bool b => b
  | JVal.num n => n != 0
  | JVal.str s => s != ""
  | JVal.arr _ => true
  | JVal.obj _ => true

/-- JavaScript property access `v.name`, with `undefined` rendered as
`JVal.null` (only truthiness of the result is ever consumed). -/
def jfield : JVal → String → JVal
  | JVal.obj fs, name =>
      match mget fs name with
      | some v => v
      | none => JVal.null
  | _, _ => JVal.null

/-- `typeof v === 'object'` (true for objects, arrays and `null`). -/
def typeofIsObject : JVal → Bool
  | JVal.null => true
  | JVal.arr _ => true
  | JVal.obj _ => true
  | _ => false

/-- The error classification from `handleValuesChanged`:
`valueUpdate.value && typeof valueUpdate.value === 'object' && valueUpdate.value.errorType`. -/
def isErrorValue (v : JVal) : Bool :=
  truthy v && typeofIsObject v && truthy (jfield v "errorType")

/-- One character of `JSON.stringify` string escaping (quote and backslash;
control-character escapes are not exercised by any claim). -/
def jsonEscapeChar (c : Char) : String :=
  if c = '"' then "\\\"" else if c = '\\' then "\\\\" else String.singleton c

/-- `JSON.stringify` rendering of a string. -/
def jsonQuote (s : String) : String :=
  "\"" ++ String.join (s.toList.map jsonEscapeChar) ++ "\""

mutual

/-- `JSON.stringify` on an embedded JSON value. -/
def jsonStringify : JVal → String
  | JVal.null => "null"
  | JVal.bool b => if b then "true" else "false"
  | JVal.num n => toString n
  | JVal.str s => jsonQuote s
  | JVal.arr xs => "[" ++ jsonStringifyArr xs ++ "]"
  | JVal.obj fs => "\x7b" ++ jsonStringifyObj fs ++ "\x7d"

/-- Comma-separated serialization of array elements. -/
def jsonStringifyArr : List JVal → String
  | [] => ""
  | [x] => jsonStringify x
  | x :: y :: xs => jsonStringify x ++ "," ++ jsonStringifyArr (y :: xs)

/-- Comma-separated serialization of object fields. -/
def jsonStringifyObj : List (String × JVal) → String
  | [] => ""
  | [(k, v)] => jsonQuote k ++ ":" ++ jsonStringify v
  | (k, v) :: f :: fs => jsonQuote k ++ ":" ++ jsonStringify v ++ "," ++ jsonStringifyObj (f :: fs)

end

/-- The projection step at the end of `handleValuesChanged`: primitives are
kept as-is, `null`/`undefined` are kept as-is, objects and arrays are
`JSON.stringify`-ed. -/
def displayValueOf (v : JVal) : JVal :=
  match v with
  | JVal.null => JVal.null
  | JVal.arr xs => JVal.str (jsonStringify (JVal.arr xs))
  | JVal.obj fs => JVal.str (jsonStringify (JVal.obj fs))
  | v => v

/-- Primitive (string, number or boolean) JSON payload. -/
def isPrimitiveValue : JVal → Bool
  | JVal.str _ => true
  | JVal.num _ => true
  | JVal.bool _ => true
  | _ => false

/-- Structured (object or array) JSON payload. -/
def isStructuredValue : JVal → Bool
  | JVal.obj _ => true
  | JVal.arr _ => true
  | _ => false

/-- An entry of `pendingSubscriptions`
(`{ feedbackId, variableName, timestamp }`). -/
structure PendingSub where
  feedbackId : String
  variableName : String
  timestamp : Int
  deriving DecidableEq

/-- An entry of `feedbackOptionsCache`. -/
structure CachedOptions where
  objectPath : String
  propertyPath : String
  variableName : String
  deriving DecidableEq

/-- The `LiveUpdateSubscription` interface. -/
structure LiveUpdateSubscription where
  id : Int
  objectPath : String
  propertyPath : String
  feedbackId : String
  variableName : String
  value : Option JVal
  changeTimestamp : Option Int
  messageTimestamp : Option Int
  errorCount : Option Nat

/-- The mutable registry fields of `DisguiseInstance`
(timers and the raw socket handle are not part of the registry state). -/
structure DState where
  subscriptions : List (Int × LiveUpdateSubscription)
  feedbackIdToSubscriptionId : List (String × Int)
  pendingSubscriptions : List (String × PendingSub)
  feedbackOptionsCache : List (String × CachedOptions)
  connectionReady : Bool
  shouldReconnect : Bool

/-- One entry of a `subscriptions` snapshot frame. -/
structure SnapEntry where
  id : Int
  objectPath : String
  propertyPath : String
  deriving DecidableEq

/-- One entry of a `valuesChanged` frame. -/
structure ValueUpdate where
  id : Int
  value : JVal
  changeTimestamp : Option Int
  messageTimestamp : Option Int

/-- An outgoing protocol frame handed to `ws.send`. -/
inductive Frame where
  | subscribe : String → List String → Option Int → Frame
  | unsubscribe : Int → Frame
  | set : Int → JVal → Frame

/-- The correlation key `` `${objectPath}:${propertyPath}` ``. -/
def subKey (objectPath propertyPath : String) : String :=
  objectPath ++ ":" ++ propertyPath

/-- The correlation key of a snapshot entry. -/
def subKeyE (e : SnapEntry) : String :=
  subKey e.objectPath e.propertyPath

/-- `disconnect()`: stops the timers, drops the socket and clears all four
maps.  The flags are untouched (the close handler cannot fire afterwards
because `removeAllListeners` precedes `close`). -/
def disconnect (s : DState) : DState :=
  { s with subscriptions := [], feedbackIdToSubscriptionId := [],
           pendingSubscriptions := [], feedbackOptionsCache := [] }

/-- `send(message)`: returns `(state, frames handed to the socket, success)`.
If the socket is not open it logs and fails; if `ws.send` throws it calls
`disconnect()` and `scheduleReconnect()` and fails. -/
def send (wsOpen sendThrows : Bool) (f : Frame) (s : DState) :
    DState × List Frame × Bool :=
  if wsOpen then
    if sendThrows then (disconnect s, [], false)
    else (s, [f], true)
  else (s, [], false)

/-- `subscribeToVariable`: guard on the socket, build the subscribe frame
(adding `configuration` only for a positive update frequency), send it, and
only on success record the pending entry (keyed by the correlation key) and
write the `'...'` placeholder.  `now` stands for `Date.now()`.  Returns
`(state, frames, variable writes)`. -/
def subscribeToVariable (wsOpen sendThrows : Bool)
    (feedbackId variableName objectPath propertyPath : String)
    (updateFrequencyMs : Option Int) (now : Int) (s : DState) :
    DState × List Frame × List (String × JVal) :=
  if !wsOpen then (s, [], [])
  else
    let cfg : Option Int :=
      match updateFrequencyMs with
      | some f => if f > 0 then some f else none
      | none => none
    let frame := Frame.subscribe objectPath [propertyPath] cfg
    let r := send wsOpen sendThrows frame s
    if !r.2.2 then (r.1, r.2.1, [])
    else
      let entry : PendingSub :=
        { feedbackId := feedbackId, variableName := variableName, timestamp := now }
      let pend1 := mset r.1.pendingSubscriptions (subKey objectPath propertyPath) entry
      ({ r.1 with pendingSubscriptions := pend1 }, r.2.1, [(variableName, JVal.str "...")])

/-- `unsubscribeFromVariable`: always delete every pending entry owned by the
feedback; if the feedback has an active subscription id, delete the by-id and
feedback-to-id entries, sending an unsubscribe frame first when the socket is
open.  Returns `(state, frames)`. -/
def unsubscribeFromVariable (wsOpen sendThrows : Bool) (feedbackId : String)
    (s : DState) : DState × List Frame :=
  let s0 := { s with pendingSubscriptions :=
      s.pendingSubscriptions.filter (fun kv => !(kv.2.feedbackId == feedbackId)) }
  match mget s0.feedbackIdToSubscriptionId feedbackId with
  | none => (s0, [])
  | some subscriptionId =>
    if !wsOpen then
      ({ s0 with subscriptions := mdel s0.subscriptions subscriptionId,
                 feedbackIdToSubscriptionId := mdel s0.feedbackIdToSubscriptionId feedbackId },
       [])
    else
      let r := send wsOpen sendThrows (Frame.unsubscribe subscriptionId) s0
      ({ r.1 with subscriptions := mdel r.1.subscriptions subscriptionId,
                  feedbackIdToSubscriptionId := mdel r.1.feedbackIdToSubscriptionId feedbackId },
       r.2.1)

/-- The `ws.on('close')` handler: marks the connection not ready, clears
`subscriptions`, `feedbackIdToSubscriptionId` and `feedbackOptionsCache`
(note: not `pendingSubscriptions`), writes the connection-status variable and
stops the pending-cleanup timer.  Returns `(state, variable writes)`. -/
def handleClose (s : DState) : DState × List (String × JVal) :=
  ({ s with connectionReady := false,
            subscriptions := [], feedbackIdToSubscriptionId := [],
            feedbackOptionsCache := [] },
   [("connection_status", JVal.str "Disconnected")])

/-- `cleanupPendingSubscriptions`: delete every pending entry strictly older
than the configured timeout (default 30000 ms).  The only side effect per
removal is a log line and `updateVariableDefinitions()`; no variable value is
written, so the write list is empty.  Returns `(state, variable writes)`. -/
def cleanupPendingSubscriptions (now : Int) (cfgTimeout : Option Int)
    (s : DState) : DState × List (String × JVal) :=
  let timeout := cfgTimeout.getD 30000
  ({ s with pendingSubscriptions :=
      s.pendingSubscriptions.filter (fun kv => !decide (now - kv.2.timestamp > timeout)) },
   [])

/-- The accumulator of the `handleSubscriptionsUpdate` loop: the two fresh
maps under construction and the (mutated-in-place) pending map. -/
structure ReconcileAcc where
  newSubs : List (Int × LiveUpdateSubscription)
  newFmap : List (String × Int)
  pend : List (String × PendingSub)

/-- The Active record built when a snapshot entry is matched against a
pending entry: the snapshot's id and paths, the pending entry's owner, and
any prior value/timestamps of an already-tracked subscription with this id
(`existing?.value` etc.); `errorCount` is not set. -/
def promotedSub (e : SnapEntry) (pending : PendingSub)
    (existing : Option LiveUpdateSubscription) : LiveUpdateSubscription :=
  { id := e.id, objectPath := e.objectPath, propertyPath := e.propertyPath,
    feedbackId := pending.feedbackId, variableName := pending.variableName,
    value := existing.bind (fun s => s.value),
    changeTimestamp := existing.bind (fun s => s.changeTimestamp),
    messageTimestamp := existing.bind (fun s => s.messageTimestamp),
    errorCount := none }

/-- One iteration of the `handleSubscriptionsUpdate` loop over a snapshot
entry.  `oldSubs` is `this.subscriptions`, which stays constant during the
loop. -/
def reconcileStep (oldSubs : List (Int × LiveUpdateSubscription))
    (acc : ReconcileAcc) (e : SnapEntry) : ReconcileAcc :=
  let existing := mget oldSubs e.id
  let key := subKeyE e
  match mget acc.pend key with
  | some pending =>
      { newSubs := mset acc.newSubs e.id (promotedSub e pending existing),
        newFmap := mset acc.newFmap pending.feedbackId e.id,
        pend := mdel acc.pend key }
  | none =>
    match existing with
    | some ex =>
        { newSubs := mset acc.newSubs e.id ex,
          newFmap := mset acc.newFmap ex.feedbackId e.id,
          pend := acc.pend }
    | none => acc

/-- The `handleSubscriptionsUpdate` loop as a fold. -/
def reconcileFold (oldSubs : List (Int × LiveUpdateSubscription))
    (snap : List SnapEntry) (acc : ReconcileAcc) : ReconcileAcc :=
  snap.foldl (reconcileStep oldSubs) acc

/-- `handleSubscriptionsUpdate(subscriptions)`: rebuild the subscription and
feedback maps from the snapshot (promoting matching pending entries,
carrying over known ids unchanged, dropping everything else) and replace
them wholesale. -/
def handleSubscriptionsUpdate (snap : List SnapEntry) (s : DState) : DState :=
  let r := reconcileFold s.subscriptions snap
      { newSubs := [], newFmap := [], pend := s.pendingSubscriptions }
  { s with subscriptions := r.newSubs,
           feedbackIdToSubscriptionId := r.newFmap,
           pendingSubscriptions := r.pend }

/-- One iteration of the `handleValuesChanged` loop.  The subscription object
fetched from the map is mutated in place (value, timestamps, errorCount),
which is modelled by writing the updated record back at the looked-up key.
The frame send in the teardown branch is modelled as accepted by the socket
(value updates only arrive while the socket is open). -/
def valuesChangedStep (acc : DState × List Frame × List (String × JVal))
    (u : ValueUpdate) : DState × List Frame × List (String × JVal) :=
  let st := acc.1
  let frames := acc.2.1
  let changedVars := acc.2.2
  match mget st.subscriptions u.id with
  | none => acc
  | some sub0 =>
    let sub1 : LiveUpdateSubscription :=
      { sub0 with
        value := some u.value,
        changeTimestamp := u.changeTimestamp,
        messageTimestamp := u.messageTimestamp }
    if isErrorValue u.value then
      let newCount := sub1.errorCount.getD 0 + 1
      let sub2 := { sub1 with errorCount := some newCount }
      if newCount ≥ 3 then
        ({ st with subscriptions := mdel (mset st.subscriptions u.id sub2) sub2.id,
                   feedbackIdToSubscriptionId :=
                     mdel st.feedbackIdToSubscriptionId sub2.feedbackId },
         frames ++ [Frame.unsubscribe sub2.id],
         mset changedVars sub2.variableName (JVal.str "PATH_ERROR (unsubscribed)"))
      else
        ({ st with subscriptions := mset st.subscriptions u.id sub2 },
         frames,
         mset changedVars sub2.variableName (JVal.str "PATH_ERROR"))
    else
      let sub2 := { sub1 with errorCount := some 0 }
      ({ st with subscriptions := mset st.subscriptions u.id sub2 },
       frames,
       mset changedVars sub2.variableName (displayValueOf u.value))

/-- `handleValuesChanged(values)`: fold the loop over the update list; the
accumulated `changedVars` object is flushed by one `setVariableValues` call
at the end, so the third component is exactly the list of variable writes. -/
def handleValuesChanged (values : List ValueUpdate) (s : DState) :
    DState × List Frame × List (String × JVal) :=
  values.foldl valuesChangedStep (s, [], [])

/-- Split `cs` at the first occurrence of `sep`: `cs = a ++ sep ++ r` with
`a` minimal (possibly empty). -/
def sepSplit (sep : List Char) : List Char → Option (List Char × List Char)
  | [] => none
  | c :: rest =>
      if sep.isPrefixOf (c :: rest) then some ([], (c :: rest).drop sep.length)
      else
        match sepSplit sep rest with
        | some (a, r) => some (c :: a, r)
        | none => none

/-- Like `sepSplit` but the part before the separator must be non-empty
(a lazy `(.+?)` group). -/
def sepSplitNE (sep : List Char) : List Char → Option (List Char × List Char)
  | [] => none
  | c :: rest =>
      match sepSplit sep rest with
      | some (a, r) => some (c :: a, r)
      | none => none

/-- The two lazy capture groups of the regex
`Unable to subscribe to (.+?) \/ (.+?) -` applied after the literal prefix:
find minimal non-empty `a` followed by `" / "`, then minimal non-empty `b`
followed by `" -"`; if no `" -"` follows, backtrack by extending `a` past the
next `" / "`.  `fuel` bounds the recursion by the input length. -/
def matchGroups : Nat → List Char → Option (List Char × List Char)
  | 0, _ => none
  | Nat.succ fuel, cs =>
      match sepSplitNE (" / ".toList) cs with
      | none => none
      | some (a, r) =>
        match sepSplitNE (" -".toList) r with
        | some (b, _) => some (a, b)
        | none =>
          match matchGroups fuel r with
          | some (a2, b) => some (a ++ " / ".toList ++ a2, b)
          | none => none

/-- Unanchored search for the regex of the `message.error` branch (pattern
`Unable to subscribe to (.+?) \/ (.+?) -` without anchors): try each
occurrence of the literal prefix in turn and return the trimmed capture
groups of the first position where the groups match. -/
def findUnableMatch : Nat → List Char → Option (String × String)
  | 0, _ => none
  | Nat.succ fuel, cs =>
      match sepSplit ("Unable to subscribe to ".toList) cs with
      | none => none
      | some (_, r) =>
        match matchGroups r.length r with
        | some (a, b) => some ((String.mk a).trim, (String.mk b).trim)
        | none => findUnableMatch fuel r

/-- The regex step of the `message.error` branch of `handleMessage`. -/
def matchUnableError (msg : String) : Option (String × String) :=
  findUnableMatch msg.length msg.toList

/-- The `message.error` branch of `handleMessage`: log, and if the error text
names a failed subscribe whose correlation key is pending, drop the pending
entry and write the `'ERROR'` token into its variable.  Calling `.match` on a
truthy non-string raises, which the surrounding `try` swallows with no state
change. -/
def handleErrorFrame (e : JVal) (s : DState) : DState × List (String × JVal) :=
  match e with
  | JVal.str msg =>
    match matchUnableError msg with
    | some (objectPath, propertyPath) =>
      let key := subKey objectPath propertyPath
      match mget s.pendingSubscriptions key with
      | some pending =>
          ({ s with pendingSubscriptions := mdel s.pendingSubscriptions key },
           [(pending.variableName, JVal.str "ERROR")])
      | none => (s, [])
    | none => (s, [])
  | _ => (s, [])

/-- Decode one entry of a `subscriptions` frame (well-formed entries only;
the claims under verification do not exercise malformed snapshot entries). -/
def decodeSnapEntry : JVal → Option SnapEntry
  | JVal.obj fs =>
    match mget fs "id", mget fs "objectPath", mget fs "propertyPath" with
    | some (JVal.num i), some (JVal.str o), some (JVal.str p) =>
        some { id := i, objectPath := o, propertyPath := p }
    | _, _, _ => none
  | _ => none

/-- Decode one entry of a `valuesChanged` frame. -/
def decodeValueUpdate : JVal → Option ValueUpdate
  | JVal.obj fs =>
    match mget fs "id" with
    | some (JVal.num i) =>
        some { id := i,
               value := (mget fs "value").getD JVal.null,
               changeTimestamp :=
                 match mget fs "changeTimestamp" with
                 | some (JVal.num t) => some t
                 | _ => none,
               messageTimestamp :=
                 match mget fs "messageTimestamp" with
                 | some (JVal.num t) => some t
                 | _ => none }
    | _ => none
  | _ => none

/-- `handleMessage(data)`: `none` stands for a `JSON.parse` failure (logged
and dropped by the surrounding `try`).  A parsed message is routed by the
truthiness of its `error` / `subscriptions` / `valuesChanged` fields; the
`error` branch returns early; any other shape falls through every `if` and
is dropped.  Property access on `null` raises and is swallowed by the `try`.
A truthy `subscriptions`/`valuesChanged` field that is not a well-formed
array aborts the handler (exception caught), keeping whatever state was
already committed.  Returns `(state, frames, variable writes)`. -/
def handleMessage (parsed : Option JVal) (s : DState) :
    DState × List Frame × List (String × JVal) :=
  match parsed with
  | none => (s, [], [])
  | some JVal.null => (s, [], [])
  | some m =>
    if truthy (jfield m "error") then
      let r := handleErrorFrame (jfield m "error") s
      (r.1, [], r.2)
    else
      let step1 : Option DState :=
        if truthy (jfield m "subscriptions") then
          match jfield m "subscriptions" with
          | JVal.arr xs =>
            match xs.mapM decodeSnapEntry with
            | some entries => some (handleSubscriptionsUpdate entries s)
            | none => none
          | _ => none
        else some s
      match step1 with
      | none => (s, [], [])
      | some s1 =>
        if truthy (jfield m "valuesChanged") then
          match jfield m "valuesChanged" with
          | JVal.arr xs =>
            match xs.mapM decodeValueUpdate with
            | some updates => handleValuesChanged updates s1
            | none => (s1, [], [])
          | _ => (s1, [], [])
        else (s1, [], [])

/-- A `valuesChanged` entry `{id, value, changeTimestamp, messageTimestamp}`. -/
def vupd (i : Int) (v : JVal) (cts mts : Option Int) : ValueUpdate :=
  { id := i, value := v, changeTimestamp := cts, messageTimestamp := mts }

/-- The in-place mutation performed on a tracked subscription by an
error-shaped update: value and timestamps taken from the update, and the
consecutive error counter `(errorCount || 0) + 1`. -/
def subAfterError (sub : LiveUpdateSubscription) (u : ValueUpdate) :
    LiveUpdateSubscription :=
  { sub with
    value := some u.value,
    changeTimestamp := u.changeTimestamp,
    messageTimestamp := u.messageTimestamp,
    errorCount := some (sub.errorCount.getD 0 + 1) }

/-- The in-place mutation performed on a tracked subscription by a non-error
update: value and timestamps taken from the update, error counter reset. -/
def subAfterSuccess (sub : LiveUpdateSubscription) (u : ValueUpdate) :
    LiveUpdateSubscription :=
  { sub with
    value := some u.value,
    changeTimestamp := u.changeTimestamp,
    messageTimestamp := u.messageTimestamp,
    errorCount := some 0 }

/-! ### Concrete states used by witnesses and counterexamples -/

/-- An empty connected registry state. -/
def emptyState : DState :=
  { subscriptions := [], feedbackIdToSubscriptionId := [],
    pendingSubscriptions := [], feedbackOptionsCache := [],
    connectionReady := true, shouldReconnect := true }

/-- A sample Active subscription with id 42 owned by feedback `f1`. -/
def sampleSub : LiveUpdateSubscription :=
  { id := 42, objectPath := "track:track_1", propertyPath := "object.lengthInBeats",
    feedbackId := "f1", variableName := "len",
    value := none, changeTimestamp := none, messageTimestamp := none,
    errorCount := none }

/-- A connected state tracking `sampleSub` (id 42, feedback `f1`). -/
def trackingState : DState :=
  { subscriptions := [(42, sampleSub)],
    feedbackIdToSubscriptionId := [("f1", 42)],
    pendingSubscriptions := [], feedbackOptionsCache := [],
    connectionReady := true, shouldReconnect := true }

/-- A sample pending entry owned by feedback `f1`, created at time 0. -/
def samplePend : PendingSub :=
  { feedbackId := "f1", variableName := "len", timestamp := 0 }

/-- A connected state with one pending entry for key `a:p`. -/
def pendingState : DState :=
  { subscriptions := [], feedbackIdToSubscriptionId := [],
    pendingSubscriptions := [("a:p", samplePend)],
    feedbackOptionsCache := [], connectionReady := true, shouldReconnect := true }

/-- An error-shaped value payload (`{errorType: "X", message: "bad path"}`). -/
def sampleErrVal : JVal :=
  JVal.obj [("errorType", JVal.str "X"), ("message", JVal.str "bad path")]

/-- A previously-active subscription with id 1 owned by feedback `g`,
used by the reconciliation-idempotence counterexample. -/
def idemOldSub : LiveUpdateSubscription :=
  { id := 1, objectPath := "b", propertyPath := "q", feedbackId := "g",
    variableName := "w", value := none, changeTimestamp := none,
    messageTimestamp := none, errorCount := none }

/-- Registry state for the reconciliation-idempotence counterexample: one
Active entry (id 1, feedback `g`) and one pending entry (key `a:p`,
feedback `f`). -/
def idemState : DState :=
  { subscriptions := [(1, idemOldSub)],
    feedbackIdToSubscriptionId := [("g", 1)],
    pendingSubscriptions := [("a:p", { feedbackId := "f", variableName := "v", timestamp := 0 })],
    feedbackOptionsCache := [], connectionReady := true, shouldReconnect := true }

/-- A snapshot with a duplicated id (1) under two different correlation
keys; the first entry matches the pending entry of `idemState`. -/
def idemSnap : List SnapEntry :=
  [{ id := 1, objectPath := "a", propertyPath := "p" },
   { id := 1, objectPath := "b", propertyPath := "q" }]

/-- The snapshot confirming `sampleSub`/`samplePend` style requests. -/
def sampleSnap : List SnapEntry :=
  [{ id := 42, objectPath := "a", propertyPath := "p" },
   { id := 7, objectPath := "b", propertyPath := "q" }]

/-- A state holding both a pending entry for `a:p` and an Active entry with
id 7 (feedback `g7`), used by the reconciliation witness. -/
def reconWitState : DState :=
  { subscriptions :=
      [(7, { id := 7, objectPath := "b", propertyPath := "q", feedbackId := "g7",
             variableName := "w7", value := some (JVal.num 5),
             changeTimestamp := some 1, messageTimestamp := some 2,
             errorCount := none }),
       (99, { id := 99, objectPath := "z", propertyPath := "z", feedbackId := "g99",
              variableName := "w99", value := none, changeTimestamp := none,
              messageTimestamp := none, errorCount := none })],
    feedbackIdToSubscriptionId := [("g7", 7), ("g99", 99)],
    pendingSubscriptions := [("a:p", samplePend)],
    feedbackOptionsCache := [], connectionReady := true, shouldReconnect := true }

/-- A state with an Active entry (id 42, feedback `f1`) and a pending entry
owned by the same feedback, used by the local-teardown witness. -/
def teardownState : DState :=
  { subscriptions := [(42, sampleSub)],
    feedbackIdToSubscriptionId := [("f1", 42)],
    pendingSubscriptions := [("a:p", samplePend)],
    feedbackOptionsCache := [], connectionReady := true, shouldReconnect := true }

/-! ### Lemmas about the Map embedding -/

theorem mget_mset_self {K V : Type} [DecidableEq K] (m : List (K × V)) (k : K) (v : V) :
    mget (mset m k v) k = some v := by
  induction m with
  | nil => simp [mset, mget]
  | cons hd tl ih =>
    obtain ⟨k', v'⟩ := hd
    by_cases h : k' = k
    · simp [mset, h, mget]
    · simp [mset, h, mget, ih]

theorem mget_mset_ne {K V : Type} [DecidableEq K] (m : List (K × V)) (k k' : K) (v : V)
    (h : k' ≠ k) : mget (mset m k v) k' = mget m k' := by
  induction m with
  | nil => simp [mset, mget, Ne.symm h]
  | cons hd tl ih =>
    obtain ⟨k1, v1⟩ := hd
    by_cases h1 : k1 = k
    · subst h1
      simp [mset, mget, Ne.symm h]
    · simp only [mset, if_neg h1, mget]
      by_cases h2 : k1 = k'
      · simp [h2]
      · simp [h2, ih]

theorem mget_mdel_self {K V : Type} [DecidableEq K] (m : List (K × V)) (k : K) :
    mget (mdel m k) k = none := by
  induction m with
  | nil => simp [mdel, mget]
  | cons hd tl ih =>
    obtain ⟨k', v'⟩ := hd
    by_cases h : k' = k
    · simp [mdel, h, ih]
    · simp [mdel, h, mget, ih]

theorem mget_mdel_ne {K V : Type} [DecidableEq K] (m : List (K × V)) (k k' : K)
    (h : k' ≠ k) : mget (mdel m k) k' = mget m k' := by
  induction m with
  | nil => simp [mdel, mget]
  | cons hd tl ih =>
    obtain ⟨k1, v1⟩ := hd
    by_cases h1 : k1 = k
    · subst h1
      simp [mdel, mget, Ne.symm h, ih]
    · simp only [mdel, if_neg h1, mget]
      by_cases h2 : k1 = k'
      · simp [h2]
      · simp [h2, ih]

theorem mget_mdel_none {K V : Type} [DecidableEq K] (m : List (K × V)) (k k' : K)
    (h : mget m k' = none) : mget (mdel m k) k' = none := by
  by_cases hk : k' = k
  · subst hk
    exact mget_mdel_self m k'
  · rw [mget_mdel_ne m k k' hk]
    exact h

/-- A key surviving a `filter` satisfies the filter predicate. -/
theorem mget_filter_some {K V : Type} [DecidableEq K] (m : List (K × V))
    (f : K × V → Bool) (k : K) (v : V)
    (h : mget (m.filter f) k = some v) : f (k, v) = true := by
  induction m with
  | nil => simp [mget] at h
  | cons hd tl ih =>
    obtain ⟨k1, v1⟩ := hd
    by_cases hf : f (k1, v1)
    · rw [List.filter_cons_of_pos hf] at h
      by_cases hk : k1 = k
      · subst hk
        have hv : v1 = v := by simpa [mget] using h
        subst hv
        exact hf
      · simp only [mget, if_neg hk] at h
        exact ih h
    · rw [List.filter_cons_of_neg (by simpa using hf)] at h
      exact ih h

theorem mget_filter_of_none {K V : Type} [DecidableEq K] (m : List (K × V))
    (f : K × V → Bool) (k : K)
    (h : mget m k = none) : mget (m.filter f) k = none := by
  induction m with
  | nil => simp [mget]
  | cons hd tl ih =>
    obtain ⟨k1, v1⟩ := hd
    by_cases hk : k1 = k
    · simp [mget, hk] at h
    · simp only [mget, if_neg hk] at h
      by_cases hf : f (k1, v1)
      · rw [List.filter_cons_of_pos hf]
        simp only [mget, if_neg hk]
        exact ih h
      · rw [List.filter_cons_of_neg (by simpa using hf)]
        exact ih h

/-- A key with an `mget` hit is among the map's keys. -/
theorem mem_keys_of_mget_some {K V : Type} [DecidableEq K] (m : List (K × V))
    (k : K) (v : V) (h : mget m k = some v) : k ∈ m.map Prod.fst := by
  induction m with
  | nil => simp [mget] at h
  | cons hd tl ih =>
    obtain ⟨k1, v1⟩ := hd
    by_cases hk : k1 = k
    · simp [hk]
    · simp only [mget, if_neg hk] at h
      simp [ih h]

/-- `mget` through a `filter`, for maps with no duplicate keys. -/
theorem mget_filter_nodup {K V : Type} [DecidableEq K] (m : List (K × V))
    (f : K × V → Bool) (k : K) (v : V)
    (hnd : (m.map Prod.fst).Nodup) (h : mget m k = some v) :
    mget (m.filter f) k = if f (k, v) then some v else none := by
  induction m with
  | nil => simp [mget] at h
  | cons hd tl ih =>
    obtain ⟨k1, v1⟩ := hd
    simp only [List.map_cons, List.nodup_cons] at hnd
    by_cases hk : k1 = k
    · subst hk
      have hv : v1 = v := by simpa [mget] using h
      subst hv
      have htl : mget tl k1 = none := by
        cases hmt : mget tl k1 with
        | none => rfl
        | some w => exact absurd (mem_keys_of_mget_some tl k1 w hmt) hnd.1
      by_cases hf : f (k1, v1)
      · rw [List.filter_cons_of_pos hf]
        simp [mget, hf]
      · rw [List.filter_cons_of_neg (by simpa using hf)]
        simp [hf, mget_filter_of_none tl f k1 htl]
    · simp only [mget, if_neg hk] at h
      by_cases hf : f (k1, v1)
      · rw [List.filter_cons_of_pos hf]
        simp only [mget, if_neg hk]
        exact ih hnd.2 h
      · rw [List.filter_cons_of_neg (by simpa using hf)]
        exact ih hnd.2 h

/-! ### Lemmas about `valuesChangedStep` -/

theorem valuesChangedStep_untracked (st : DState) (frames : List Frame)
    (cvars : List (String × JVal)) (u : ValueUpdate)
    (h : mget st.subscriptions u.id = none) :
    valuesChangedStep (st, frames, cvars) u = (st, frames, cvars) := by
  simp [valuesChangedStep, h]

theorem valuesChangedStep_error_low (st : DState) (frames : List Frame)
    (cvars : List (String × JVal)) (u : ValueUpdate) (sub : LiveUpdateSubscription)
    (hsub : mget st.subscriptions u.id = some sub)
    (herr : isErrorValue u.value = true)
    (hlow : sub.errorCount.getD 0 + 1 < 3) :
    valuesChangedStep (st, frames, cvars) u =
      ({ st with subscriptions := mset st.subscriptions u.id (subAfterError sub u) },
       frames,
       mset cvars sub.variableName (JVal.str "PATH_ERROR")) := by
  simp only [valuesChangedStep, hsub, herr, if_true]
  rw [if_neg (by omega : ¬ sub.errorCount.getD 0 + 1 ≥ 3)]
  rfl

theorem valuesChangedStep_error_teardown (st : DState) (frames : List Frame)
    (cvars : List (String × JVal)) (u : ValueUpdate) (sub : LiveUpdateSubscription)
    (hsub : mget st.subscriptions u.id = some sub)
    (herr : isErrorValue u.value = true)
    (hhigh : sub.errorCount.getD 0 + 1 ≥ 3) :
    valuesChangedStep (st, frames, cvars) u =
      ({ st with
         subscriptions := mdel (mset st.subscriptions u.id (subAfterError sub u)) sub.id,
         feedbackIdToSubscriptionId := mdel st.feedbackIdToSubscriptionId sub.feedbackId },
       frames ++ [Frame.unsubscribe sub.id],
       mset cvars sub.variableName (JVal.str "PATH_ERROR (unsubscribed)")) := by
  simp only [valuesChangedStep, hsub, herr, if_true]
  rw [if_pos (by omega : sub.errorCount.getD 0 + 1 ≥ 3)]
  rfl

theorem valuesChangedStep_success (st : DState) (frames : List Frame)
    (cvars : List (String × JVal)) (u : ValueUpdate) (sub : LiveUpdateSubscription)
    (hsub : mget st.subscriptions u.id = some sub)
    (hok : isErrorValue u.value = false) :
    valuesChangedStep (st, frames, cvars) u =
      ({ st with subscriptions := mset st.subscriptions u.id (subAfterSuccess sub u) },
       frames,
       mset cvars sub.variableName (displayValueOf u.value)) := by
  simp only [valuesChangedStep, hsub, hok]
  rfl

/-! ### C9: value projection -/

/-- C9: for a non-error value update applied to a tracked Active
subscription, the value written to the collaborator's variable is the
payload itself when it is a primitive (string, number or boolean), and the
`JSON.stringify` serialization of the payload when it is a structured
(object or array) value. -/
theorem c9_value_projection (s : DState) (i : Int) (sub : LiveUpdateSubscription)
    (v : JVal) (cts mts : Option Int)
    (hsub : mget s.subscriptions i = some sub)
    (hv : isErrorValue v = false) :
    (isPrimitiveValue v = true →
      (handleValuesChanged [vupd i v cts mts] s).2.2 = [(sub.variableName, v)]) ∧
    (isStructuredValue v = true →
      (handleValuesChanged [vupd i v cts mts] s).2.2
        = [(sub.variableName, JVal.str (jsonStringify v))]) := by
  have hstep : handleValuesChanged [vupd i v cts mts] s
      = valuesChangedStep (s, [], []) (vupd i v cts mts) := rfl
  have hu : (vupd i v cts mts).id = i := rfl
  have h1 := valuesChangedStep_success s [] [] (vupd i v cts mts) sub
      (by rw [hu]; exact hsub) hv
  constructor
  · intro hp
    rw [hstep, h1]
    cases v with
    | str sv => simp [displayValueOf, mset, vupd]
    | num nv => simp [displayValueOf, mset, vupd]
    | bool bv => simp [displayValueOf, mset, vupd]
    | null => simp [isPrimitiveValue] at hp
    | arr xs => simp [isPrimitiveValue] at hp
    | obj fs => simp [isPrimitiveValue] at hp
  · intro hp
    rw [hstep, h1]
    cases v with
    | arr xs => simp [displayValueOf, mset, vupd]
    | obj fs => simp [displayValueOf, mset, vupd]
    | null => simp [isStructuredValue] at hp
    | str sv => simp [isStructuredValue] at hp
    | num nv => simp [isStructuredValue] at hp
    | bool bv => simp [isStructuredValue] at hp

/-- Witness for C9 at a concrete input: a tracked update with the primitive
value 120 is written through unchanged, and one with a structured value is
written as its JSON serialization. -/
theorem c9_value_projection_witness :
    (handleValuesChanged [vupd 42 (JVal.num 120) (some 1) (some 2)] trackingState).2.2
      = [("len", JVal.num 120)] ∧
    (handleValuesChanged [vupd 42 (JVal.arr [JVal.num 1]) none none] trackingState).2.2
      = [("len", JVal.str "[1]")] := by
  constructor
  · exact (c9_value_projection trackingState 42 sampleSub (JVal.num 120) (some 1) (some 2)
      rfl rfl).1 rfl
  · exact (c9_value_projection trackingState 42 sampleSub (JVal.arr [JVal.num 1]) none none
      rfl rfl).2 rfl

/-! ### C1: health policy -/

/-- C1: for an Active subscription whose consecutive error counter is zero,
three consecutive error-shaped value updates for its id send exactly one
unsubscribe frame and remove the entry from both the by-id and by-feedback
tables; a non-error update resets the counter to zero; and the sequence
error, error, success, error, error sends no frame and leaves the
subscription tracked (with counter 2). -/
theorem c1_health_policy (s : DState) (i : Int) (sub : LiveUpdateSubscription)
    (hs : mget s.subscriptions i = some sub) (hid : sub.id = i)
    (hec : sub.errorCount.getD 0 = 0)
    (e1 e2 e3 e4 : JVal) (v : JVal) (cts mts : Option Int)
    (he1 : isErrorValue e1 = true) (he2 : isErrorValue e2 = true)
    (he3 : isErrorValue e3 = true) (he4 : isErrorValue e4 = true)
    (hv : isErrorValue v = false) :
    ((handleValuesChanged [vupd i e1 cts mts, vupd i e2 cts mts, vupd i e3 cts mts] s).2.1
        = [Frame.unsubscribe i] ∧
     mget (handleValuesChanged [vupd i e1 cts mts, vupd i e2 cts mts, vupd i e3 cts mts] s).1.subscriptions i
        = none ∧
     mget (handleValuesChanged [vupd i e1 cts mts, vupd i e2 cts mts, vupd i e3 cts mts] s).1.feedbackIdToSubscriptionId sub.feedbackId
        = none) ∧
    (mget (handleValuesChanged [vupd i v cts mts] s).1.subscriptions i
        = some (subAfterSuccess sub (vupd i v cts mts)) ∧
     (subAfterSuccess sub (vupd i v cts mts)).errorCount = some 0) ∧
    ((handleValuesChanged
        [vupd i e1 cts mts, vupd i e2 cts mts, vupd i v cts mts,
         vupd i e3 cts mts, vupd i e4 cts mts] s).2.1 = [] ∧
     (mget (handleValuesChanged
        [vupd i e1 cts mts, vupd i e2 cts mts, vupd i v cts mts,
         vupd i e3 cts mts, vupd i e4 cts mts] s).1.subscriptions i).map
          (fun sb => sb.errorCount) = some (some 2)) := by
  have hfoldA : handleValuesChanged [vupd i e1 cts mts, vupd i e2 cts mts, vupd i e3 cts mts] s
      = valuesChangedStep (valuesChangedStep (valuesChangedStep (s, [], []) (vupd i e1 cts mts))
          (vupd i e2 cts mts)) (vupd i e3 cts mts) := rfl
  have h1 := valuesChangedStep_error_low s [] [] (vupd i e1 cts mts) sub hs he1 (by omega)
  rw [h1] at hfoldA
  rw [valuesChangedStep_error_low _ _ _ (vupd i e2 cts mts) _ (mget_mset_self _ _ _) he2
    (by simp [subAfterError] <;> omega)] at hfoldA
  rw [valuesChangedStep_error_teardown _ _ _ (vupd i e3 cts mts) _ (mget_mset_self _ _ _) he3
    (by simp [subAfterError] <;> omega)] at hfoldA
  -- the fold for the error, error, success, error, error sequence
  have hfoldC : handleValuesChanged
      [vupd i e1 cts mts, vupd i e2 cts mts, vupd i v cts mts,
       vupd i e3 cts mts, vupd i e4 cts mts] s
      = valuesChangedStep (valuesChangedStep (valuesChangedStep (valuesChangedStep
          (valuesChangedStep (s, [], []) (vupd i e1 cts mts))
          (vupd i e2 cts mts)) (vupd i v cts mts)) (vupd i e3 cts mts)) (vupd i e4 cts mts) := rfl
  rw [h1] at hfoldC
  rw [valuesChangedStep_error_low _ _ _ (vupd i e2 cts mts) _ (mget_mset_self _ _ _) he2
    (by simp [subAfterError] <;> omega)] at hfoldC
  rw [valuesChangedStep_success _ _ _ (vupd i v cts mts) _ (mget_mset_self _ _ _) hv] at hfoldC
  rw [valuesChangedStep_error_low _ _ _ (vupd i e3 cts mts) _ (mget_mset_self _ _ _) he3
    (by simp [subAfterSuccess, subAfterError] <;> omega)] at hfoldC
  rw [valuesChangedStep_error_low _ _ _ (vupd i e4 cts mts) _ (mget_mset_self _ _ _) he4
    (by simp [subAfterSuccess, subAfterError] <;> omega)] at hfoldC
  -- the fold for a single success update
  have hfoldB : handleValuesChanged [vupd i v cts mts] s
      = valuesChangedStep (s, [], []) (vupd i v cts mts) := rfl
  rw [valuesChangedStep_success _ _ _ (vupd i v cts mts) sub hs hv] at hfoldB
  refine ⟨⟨?_, ?_, ?_⟩, ⟨?_, ?_⟩, ?_, ?_⟩
  · rw [hfoldA]
    simp [subAfterError, hid]
  · rw [hfoldA]
    have hidB : (subAfterError (subAfterError sub (vupd i e1 cts mts)) (vupd i e2 cts mts)).id = i := hid
    simp only [hidB]
    exact mget_mdel_self _ i
  · rw [hfoldA]
    exact mget_mdel_self _ sub.feedbackId
  · rw [hfoldB]
    exact mget_mset_self _ _ _
  · simp [subAfterSuccess]
  · rw [hfoldC]
  · rw [hfoldC]
    simp only [vupd]
    simp [mget_mset_self, subAfterError, subAfterSuccess]

/-- Witness for C1 at a concrete input: three error updates for the tracked
id 42 produce exactly one unsubscribe frame and remove the entry, while the
error-error-success-error-error sequence produces no frame. -/
theorem c1_health_policy_witness :
    (handleValuesChanged [vupd 42 sampleErrVal none none, vupd 42 sampleErrVal none none,
        vupd 42 sampleErrVal none none] trackingState).2.1 = [Frame.unsubscribe 42] ∧
    mget (handleValuesChanged [vupd 42 sampleErrVal none none, vupd 42 sampleErrVal none none,
        vupd 42 sampleErrVal none none] trackingState).1.subscriptions 42 = none ∧
    mget (handleValuesChanged [vupd 42 sampleErrVal none none, vupd 42 sampleErrVal none none,
        vupd 42 sampleErrVal none none] trackingState).1.feedbackIdToSubscriptionId "f1" = none ∧
    (handleValuesChanged [vupd 42 sampleErrVal none none, vupd 42 sampleErrVal none none,
        vupd 42 (JVal.num 7) none none, vupd 42 sampleErrVal none none,
        vupd 42 sampleErrVal none none] trackingState).2.1 = [] := by
  have h := c1_health_policy trackingState 42 sampleSub rfl rfl rfl
    sampleErrVal sampleErrVal sampleErrVal sampleErrVal (JVal.num 7) none none
    rfl rfl rfl rfl rfl
  exact ⟨h.1.1, h.1.2.1, h.1.2.2, h.2.2.1⟩

/-! ### C4: teardown on leaving the Connected state -/

/-- C4 counterexample: the transport-close handler does not clear the
pending-subscription table — from a state with a pending entry, the table is
still non-empty after the close handler runs, so not every table is empty
after the transition away from Connected. -/
theorem c4_close_counterexample :
    (handleClose pendingState).1.pendingSubscriptions ≠ [] := by
  decide

/-- C4 (amended): the transport-close handler clears the by-id and
feedback-to-id tables and the ready flag but leaves the pending table
untouched; operator disconnect and reconnect (which both run `disconnect`)
clear all three tables. -/
theorem c4_close_clears (s : DState) :
    (handleClose s).1.subscriptions = [] ∧
    (handleClose s).1.feedbackIdToSubscriptionId = [] ∧
    (handleClose s).1.connectionReady = false ∧
    (handleClose s).1.pendingSubscriptions = s.pendingSubscriptions ∧
    (disconnect s).subscriptions = [] ∧
    (disconnect s).feedbackIdToSubscriptionId = [] ∧
    (disconnect s).pendingSubscriptions = [] := by
  exact ⟨rfl, rfl, rfl, rfl, rfl, rfl, rfl⟩

/-! ### C5: pending sweep -/

/-- C5 counterexample: a pending entry older than the timeout is removed by
the sweep, but the sweep performs no variable write at all — the requestor
observes zero error-state notifications, not exactly one. -/
theorem c5_sweep_counterexample :
    mget pendingState.pendingSubscriptions "a:p" = some samplePend ∧
    ((40000 : Int) - samplePend.timestamp > 30000) ∧
    (cleanupPendingSubscriptions 40000 none pendingState).2 = [] ∧
    mget (cleanupPendingSubscriptions 40000 none pendingState).1.pendingSubscriptions "a:p" = none := by
  exact ⟨rfl, by decide, rfl, rfl⟩

/-- C5 (amended): the sweep removes exactly the pending entries strictly
older than the configured timeout (default 30000 ms) and keeps the rest
unchanged, but emits no error-state notification — no variable write happens
(only the variable definitions are refreshed). -/
theorem c5_pending_sweep (now : Int) (cfg : Option Int) (s : DState)
    (hnd : (s.pendingSubscriptions.map Prod.fst).Nodup) :
    (cleanupPendingSubscriptions now cfg s).2 = [] ∧
    (∀ k p, mget s.pendingSubscriptions k = some p →
      (now - p.timestamp > cfg.getD 30000 →
        mget (cleanupPendingSubscriptions now cfg s).1.pendingSubscriptions k = none) ∧
      (¬ now - p.timestamp > cfg.getD 30000 →
        mget (cleanupPendingSubscriptions now cfg s).1.pendingSubscriptions k = some p)) := by
  refine ⟨rfl, ?_⟩
  intro k p hk
  have hchar := mget_filter_nodup s.pendingSubscriptions
    (fun kv => !decide (now - kv.2.timestamp > cfg.getD 30000)) k p hnd hk
  constructor
  · intro hT
    show mget (s.pendingSubscriptions.filter _) k = none
    rw [hchar]
    simp [hT]
  · intro hT
    show mget (s.pendingSubscriptions.filter _) k = some p
    rw [hchar]
    simp [hT]

/-- Witness for the amended C5 at a concrete input: the timed-out entry at
key `a:p` is removed by the sweep. -/
theorem c5_pending_sweep_witness :
    mget (cleanupPendingSubscriptions 40000 none pendingState).1.pendingSubscriptions "a:p" = none :=
  ((c5_pending_sweep 40000 none pendingState (by decide)).2 "a:p" samplePend rfl).1 (by decide)

/-! ### C6: failed subscribe sends -/

/-- C6 counterexample: with a pending entry already present, a subscribe
whose `ws.send` throws leaves no pending entry at all for the request's
correlation key — the failing send triggers `disconnect()`, which clears the
whole pending table, so the entry is not "still kept". -/
theorem c6_send_failure_counterexample :
    pendingState.pendingSubscriptions ≠ [] ∧
    mget (subscribeToVariable true true "f2" "v2" "a" "p" none 5 pendingState).1.pendingSubscriptions "a:p" = none ∧
    (subscribeToVariable true true "f2" "v2" "a" "p" none 5 pendingState).1.pendingSubscriptions = [] := by
  exact ⟨by decide, rfl, rfl⟩

/-- C6 (amended): when the subscribe frame cannot be sent, no pending entry
is recorded for the request — a throwing send clears every table via
`disconnect` and returns, and a non-open socket returns with the state
untouched; in neither case does the subscribe path retry or hand a frame to
the socket. -/
theorem c6_send_failure (fid var obj prop : String) (freq : Option Int)
    (now : Int) (s : DState) :
    subscribeToVariable true true fid var obj prop freq now s = (disconnect s, [], []) ∧
    mget (subscribeToVariable true true fid var obj prop freq now s).1.pendingSubscriptions (subKey obj prop) = none ∧
    subscribeToVariable false false fid var obj prop freq now s = (s, [], []) := by
  exact ⟨rfl, rfl, rfl⟩

/-! ### C7: duplicate subscribe for a pending correlation key -/

/-- C7 counterexample: a second subscribe to the already-pending key `a:p`
replaces the pending entry (new owner, new display name, new timestamp)
instead of being ignored. -/
theorem c7_duplicate_subscribe_counterexample :
    mget pendingState.pendingSubscriptions "a:p" = some samplePend ∧
    mget (subscribeToVariable true false "f2" "v2" "a" "p" none 5 pendingState).1.pendingSubscriptions "a:p"
      = some { feedbackId := "f2", variableName := "v2", timestamp := 5 } ∧
    ({ feedbackId := "f2", variableName := "v2", timestamp := 5 } : PendingSub) ≠ samplePend := by
  exact ⟨rfl, rfl, by decide⟩

/-- C7 (amended): a second subscribe to a correlation key with an
outstanding pending entry is not ignored: it sends another subscribe frame
and silently overwrites the pending entry with the new requestor, display
name and a fresh creation time, and writes the placeholder into the new
variable. -/
theorem c7_duplicate_subscribe (fid1 var1 fid2 var2 obj prop : String)
    (t1 now : Int) (freq : Option Int) (s : DState)
    (h : mget s.pendingSubscriptions (subKey obj prop)
        = some { feedbackId := fid1, variableName := var1, timestamp := t1 }) :
    mget (subscribeToVariable true false fid2 var2 obj prop freq now s).1.pendingSubscriptions (subKey obj prop)
      = some { feedbackId := fid2, variableName := var2, timestamp := now } ∧
    (subscribeToVariable true false fid2 var2 obj prop freq now s).2.2
      = [(var2, JVal.str "...")] := by
  exact ⟨mget_mset_self _ _ _, rfl⟩

/-- Witness for the amended C7 at a concrete input. -/
theorem c7_duplicate_subscribe_witness :
    mget (subscribeToVariable true false "f9" "v9" "a" "p" none 9 pendingState).1.pendingSubscriptions "a:p"
      = some { feedbackId := "f9", variableName := "v9", timestamp := 9 } :=
  (c7_duplicate_subscribe "f1" "len" "f9" "v9" "a" "p" 0 9 none pendingState rfl).1

/-! ### C10: unsubscribe while disconnected -/

/-- C10: `unsubscribeFromVariable` on a non-open socket still performs the
full local teardown: no frame is produced, every pending entry owned by the
feedback is gone, and if the feedback mapped to an Active id, both the by-id
and the feedback-to-id entries are removed. -/
theorem c10_local_teardown (s : DState) (fid : String) :
    (unsubscribeFromVariable false false fid s).2 = [] ∧
    (∀ k p, mget (unsubscribeFromVariable false false fid s).1.pendingSubscriptions k = some p →
        p.feedbackId ≠ fid) ∧
    (∀ sid, mget s.feedbackIdToSubscriptionId fid = some sid →
        mget (unsubscribeFromVariable false false fid s).1.subscriptions sid = none ∧
        mget (unsubscribeFromVariable false false fid s).1.feedbackIdToSubscriptionId fid = none) := by
  cases hm : mget s.feedbackIdToSubscriptionId fid with
  | none =>
    refine ⟨?_, ?_, ?_⟩
    · simp [unsubscribeFromVariable, hm]
    · intro k p hk
      have hk' : mget (s.pendingSubscriptions.filter
          (fun kv => !(kv.2.feedbackId == fid))) k = some p := by
        simpa [unsubscribeFromVariable, hm] using hk
      have hpred := mget_filter_some _ _ _ _ hk'
      simpa using hpred
    · intro sid hsid
      simp at hsid
  | some subId =>
    refine ⟨?_, ?_, ?_⟩
    · simp [unsubscribeFromVariable, hm]
    · intro k p hk
      have hk' : mget (s.pendingSubscriptions.filter
          (fun kv => !(kv.2.feedbackId == fid))) k = some p := by
        simpa [unsubscribeFromVariable, hm] using hk
      have hpred := mget_filter_some _ _ _ _ hk'
      simpa using hpred
    · intro sid hsid
      have hsid' : subId = sid := by simpa using hsid
      subst hsid'
      constructor
      · have hred : (unsubscribeFromVariable false false fid s).1.subscriptions
            = mdel s.subscriptions subId := by
          simp [unsubscribeFromVariable, hm]
        rw [hred]
        exact mget_mdel_self _ subId
      · have hred : (unsubscribeFromVariable false false fid s).1.feedbackIdToSubscriptionId
            = mdel s.feedbackIdToSubscriptionId fid := by
          simp [unsubscribeFromVariable, hm]
        rw [hred]
        exact mget_mdel_self _ fid

/-- Witness for C10 at a concrete input: with the socket closed, the Active
entry for id 42 and its feedback mapping are removed and no frame is sent. -/
theorem c10_local_teardown_witness :
    mget (unsubscribeFromVariable false false "f1" teardownState).1.subscriptions 42 = none ∧
    mget (unsubscribeFromVariable false false "f1" teardownState).1.feedbackIdToSubscriptionId "f1" = none ∧
    (unsubscribeFromVariable false false "f1" teardownState).2 = [] :=
  have h := c10_local_teardown teardownState "f1"
  ⟨(h.2.2 42 rfl).1, (h.2.2 42 rfl).2, h.1⟩

/-! ### C8: malformed and unknown frames -/

/-- C8: a frame whose payload does not parse, or whose parsed form has none
of the `error` / `subscriptions` / `valuesChanged` tags truthy, is dropped:
`handleMessage` returns the state unchanged with no frames and no variable
writes. -/
theorem c8_unknown_frames_dropped (m : Option JVal) (s : DState)
    (h : m = none ∨ ∃ w, m = some w ∧ truthy (jfield w "error") = false ∧
        truthy (jfield w "subscriptions") = false ∧
        truthy (jfield w "valuesChanged") = false) :
    handleMessage m s = (s, [], []) := by
  rcases h with h | ⟨w, hm, he, hsub, hvc⟩
  · subst h
    rfl
  · subst hm
    cases w with
    | null => rfl
    | bool b => simp [handleMessage, he, hsub, hvc]
    | num n => simp [handleMessage, he, hsub, hvc]
    | str t => simp [handleMessage, he, hsub, hvc]
    | arr xs => simp [handleMessage, he, hsub, hvc]
    | obj fs => simp [handleMessage, he, hsub, hvc]

/-- Witness for C8 at concrete inputs: an unparseable frame and a frame with
an unknown tag are both dropped without touching the state. -/
theorem c8_unknown_frames_dropped_witness :
    handleMessage none trackingState = (trackingState, [], []) ∧
    handleMessage (some (JVal.obj [("ping", JVal.num 1)])) trackingState
      = (trackingState, [], []) :=
  ⟨c8_unknown_frames_dropped none trackingState (Or.inl rfl),
   c8_unknown_frames_dropped (some (JVal.obj [("ping", JVal.num 1)])) trackingState
     (Or.inr ⟨JVal.obj [("ping", JVal.num 1)], rfl, rfl, rfl, rfl⟩)⟩

/-! ### Lemmas about the reconciliation fold -/

theorem reconcileStep_newSubs_ne (O : List (Int × LiveUpdateSubscription))
    (acc : ReconcileAcc) (e : SnapEntry) (i : Int) (h : e.id ≠ i) :
    mget (reconcileStep O acc e).newSubs i = mget acc.newSubs i := by
  cases hp : mget acc.pend (subKeyE e) with
  | some p =>
    simp only [reconcileStep, hp]
    exact mget_mset_ne _ _ _ _ (Ne.symm h)
  | none =>
    cases hex : mget O e.id with
    | some ex =>
      simp only [reconcileStep, hp, hex]
      exact mget_mset_ne _ _ _ _ (Ne.symm h)
    | none =>
      simp only [reconcileStep, hp, hex]

theorem reconcileStep_pend_none (O : List (Int × LiveUpdateSubscription))
    (acc : ReconcileAcc) (e : SnapEntry) (k : String)
    (h : mget acc.pend k = none) :
    mget (reconcileStep O acc e).pend k = none := by
  cases hp : mget acc.pend (subKeyE e) with
  | some p =>
    simp only [reconcileStep, hp]
    exact mget_mdel_none _ _ _ h
  | none =>
    cases hex : mget O e.id with
    | some ex => simpa only [reconcileStep, hp, hex] using h
    | none => simpa only [reconcileStep, hp, hex] using h

theorem reconcileStep_pend_ne (O : List (Int × LiveUpdateSubscription))
    (acc : ReconcileAcc) (e : SnapEntry) (k : String) (h : subKeyE e ≠ k) :
    mget (reconcileStep O acc e).pend k = mget acc.pend k := by
  cases hp : mget acc.pend (subKeyE e) with
  | some p =>
    simp only [reconcileStep, hp]
    exact mget_mdel_ne _ _ _ (Ne.symm h)
  | none =>
    cases hex : mget O e.id with
    | some ex => simp only [reconcileStep, hp, hex]
    | none => simp only [reconcileStep, hp, hex]

theorem reconcileStep_pend_self (O : List (Int × LiveUpdateSubscription))
    (acc : ReconcileAcc) (e : SnapEntry) :
    mget (reconcileStep O acc e).pend (subKeyE e) = none := by
  cases hp : mget acc.pend (subKeyE e) with
  | some p =>
    simp only [reconcileStep, hp]
    exact mget_mdel_self _ _
  | none =>
    cases hex : mget O e.id with
    | some ex => simpa only [reconcileStep, hp, hex] using hp
    | none => simpa only [reconcileStep, hp, hex] using hp

theorem rfold_newSubs_ne (O : List (Int × LiveUpdateSubscription))
    (l : List SnapEntry) :
    ∀ (acc : ReconcileAcc) (i : Int), (∀ e ∈ l, e.id ≠ i) →
      mget (reconcileFold O l acc).newSubs i = mget acc.newSubs i := by
  induction l with
  | nil => intro acc i _; rfl
  | cons e t ih =>
    intro acc i h
    rw [show reconcileFold O (e :: t) acc = reconcileFold O t (reconcileStep O acc e) from rfl]
    rw [ih _ i (fun e' he' => h e' (List.mem_cons_of_mem e he'))]
    exact reconcileStep_newSubs_ne O acc e i (h e (List.mem_cons_self e t))

theorem rfold_pend_none (O : List (Int × LiveUpdateSubscription))
    (l : List SnapEntry) :
    ∀ (acc : ReconcileAcc) (k : String), mget acc.pend k = none →
      mget (reconcileFold O l acc).pend k = none := by
  induction l with
  | nil => intro acc k h; exact h
  | cons e t ih =>
    intro acc k h
    rw [show reconcileFold O (e :: t) acc = reconcileFold O t (reconcileStep O acc e) from rfl]
    exact ih _ k (reconcileStep_pend_none O acc e k h)

theorem rfold_pend_mem (O : List (Int × LiveUpdateSubscription))
    (l : List SnapEntry) :
    ∀ (acc : ReconcileAcc) (e : SnapEntry), e ∈ l →
      mget (reconcileFold O l acc).pend (subKeyE e) = none := by
  induction l with
  | nil => intro acc e he; cases he
  | cons e0 t ih =>
    intro acc e he
    rw [show reconcileFold O (e0 :: t) acc = reconcileFold O t (reconcileStep O acc e0) from rfl]
    rcases List.mem_cons.mp he with rfl | hmem
    · exact rfold_pend_none O t _ _ (reconcileStep_pend_self O acc e)
    · exact ih _ e hmem

theorem rfold_entry (O : List (Int × LiveUpdateSubscription)) (l : List SnapEntry) :
    ∀ (acc : ReconcileAcc),
      (l.map SnapEntry.id).Nodup → (l.map subKeyE).Nodup →
      (∀ e ∈ l, mget acc.newSubs e.id = none) →
      ∀ e ∈ l, mget (reconcileFold O l acc).newSubs e.id
        = (match mget acc.pend (subKeyE e) with
           | some p => some (promotedSub e p (mget O e.id))
           | none => mget O e.id) := by
  induction l with
  | nil => intro acc _ _ _ e he; cases he
  | cons e0 t ih =>
    intro acc hids hkeys hacc e he
    simp only [List.map_cons, List.nodup_cons] at hids hkeys
    have hid0 : ∀ e' ∈ t, e'.id ≠ e0.id := by
      intro e' he' hcontra
      exact hids.1 (hcontra ▸ List.mem_map_of_mem SnapEntry.id he')
    have hkey0 : ∀ e' ∈ t, subKeyE e' ≠ subKeyE e0 := by
      intro e' he' hcontra
      exact hkeys.1 (hcontra ▸ List.mem_map_of_mem subKeyE he')
    rw [show reconcileFold O (e0 :: t) acc = reconcileFold O t (reconcileStep O acc e0) from rfl]
    rcases List.mem_cons.mp he with rfl | hmem
    · rw [rfold_newSubs_ne O t _ e.id hid0]
      cases hp : mget acc.pend (subKeyE e) with
      | some p =>
        simp only [reconcileStep, hp]
        exact mget_mset_self _ _ _
      | none =>
        cases hex : mget O e.id with
        | some ex =>
          simp only [reconcileStep, hp, hex]
          exact mget_mset_self _ _ _
        | none =>
          simp only [reconcileStep, hp, hex]
          exact hacc e (List.mem_cons_self e t)
    · have hacc' : ∀ e' ∈ t, mget (reconcileStep O acc e0).newSubs e'.id = none := by
        intro e' he'
        rw [reconcileStep_newSubs_ne O acc e0 e'.id (Ne.symm (hid0 e' he'))]
        exact hacc e' (List.mem_cons_of_mem e0 he')
      have hpend' : mget (reconcileStep O acc e0).pend (subKeyE e)
          = mget acc.pend (subKeyE e) :=
        reconcileStep_pend_ne O acc e0 (subKeyE e) (Ne.symm (hkey0 e hmem))
      rw [ih (reconcileStep O acc e0) hids.2 hkeys.2 hacc' e hmem, hpend']

/-! ### C2: snapshot reconciliation -/

/-- C2: reconciliation rebuilds the tracked set from the snapshot alone (for
well-formed snapshots, whose ids and correlation keys are pairwise
distinct): a snapshot entry whose correlation key has a pending entry is
promoted to Active under the snapshot's id (owner from the pending entry,
value/timestamps from any prior entry with that id) and the pending entry is
removed; otherwise the entry's id keeps exactly its previous by-id record —
an already-Active id is carried over unchanged and an unknown id stays
untracked; and every id absent from the snapshot, in particular every
previously-Active one, is dropped from the by-id table. -/
theorem c2_reconcile (s : DState) (snap : List SnapEntry)
    (hids : (snap.map SnapEntry.id).Nodup) (hkeys : (snap.map subKeyE).Nodup) :
    (∀ e ∈ snap,
      (∀ p, mget s.pendingSubscriptions (subKeyE e) = some p →
        mget (handleSubscriptionsUpdate snap s).subscriptions e.id
          = some (promotedSub e p (mget s.subscriptions e.id)) ∧
        mget (handleSubscriptionsUpdate snap s).pendingSubscriptions (subKeyE e) = none) ∧
      (mget s.pendingSubscriptions (subKeyE e) = none →
        mget (handleSubscriptionsUpdate snap s).subscriptions e.id
          = mget s.subscriptions e.id)) ∧
    (∀ i : Int, (∀ e ∈ snap, e.id ≠ i) →
      mget (handleSubscriptionsUpdate snap s).subscriptions i = none) := by
  have hchar := rfold_entry s.subscriptions snap
    { newSubs := [], newFmap := [], pend := s.pendingSubscriptions }
    hids hkeys (fun _ _ => rfl)
  constructor
  · intro e he
    have hche := hchar e he
    constructor
    · intro p hp
      constructor
      · show mget (reconcileFold s.subscriptions snap
            { newSubs := [], newFmap := [], pend := s.pendingSubscriptions }).newSubs e.id = _
        rw [hche, hp]
      · show mget (reconcileFold s.subscriptions snap
            { newSubs := [], newFmap := [], pend := s.pendingSubscriptions }).pend (subKeyE e) = none
        exact rfold_pend_mem s.subscriptions snap _ e he
    · intro hp
      show mget (reconcileFold s.subscriptions snap
          { newSubs := [], newFmap := [], pend := s.pendingSubscriptions }).newSubs e.id = _
      rw [hche, hp]
  · intro i hi
    show mget (reconcileFold s.subscriptions snap
        { newSubs := [], newFmap := [], pend := s.pendingSubscriptions }).newSubs i = none
    rw [rfold_newSubs_ne s.subscriptions snap _ i hi]
    rfl

/-- Witness for C2 at a concrete input: in `reconWitState`, snapshot entry
42 promotes the pending entry at key `a:p`, entry 7 carries the existing
Active record over unchanged, and the absent id 99 is dropped. -/
theorem c2_reconcile_witness :
    mget (handleSubscriptionsUpdate sampleSnap reconWitState).subscriptions 42
      = some (promotedSub { id := 42, objectPath := "a", propertyPath := "p" }
          samplePend (mget reconWitState.subscriptions 42)) ∧
    mget (handleSubscriptionsUpdate sampleSnap reconWitState).subscriptions 7
      = mget reconWitState.subscriptions 7 ∧
    mget (handleSubscriptionsUpdate sampleSnap reconWitState).subscriptions 99 = none := by
  have h := c2_reconcile reconWitState sampleSnap (by decide) (by decide)
  refine ⟨?_, ?_, ?_⟩
  · exact ((h.1 { id := 42, objectPath := "a", propertyPath := "p" } (by decide)).1
      samplePend rfl).1
  · exact (h.1 { id := 7, objectPath := "b", propertyPath := "q" } (by decide)).2 rfl
  · exact h.2 99 (by decide)

/-! ### C3: idempotence of reconciliation -/

/-- C3 counterexample: for a snapshot that repeats an id under two
correlation keys, one of which matches a pending entry, the feedback-to-id
table differs between the first and the second application of the same
snapshot (the stale mapping `f ↦ 1` survives pass one but not pass two), so
reconciliation is not idempotent for every registry state and snapshot. -/
theorem c3_idempotence_counterexample :
    mget (handleSubscriptionsUpdate idemSnap idemState).feedbackIdToSubscriptionId "f"
      = some 1 ∧
    mget (handleSubscriptionsUpdate idemSnap
        (handleSubscriptionsUpdate idemSnap idemState)).feedbackIdToSubscriptionId "f"
      = none := by
  exact ⟨rfl, rfl⟩

/-- Replaying a snapshot over the state produced by a first reconciliation
pass reproduces that pass's by-id and feedback maps exactly, provided the
snapshot's ids are distinct: `S` is the by-id map built by the first pass,
`p'` a pending map with no snapshot key, and both folds then perform
identical writes. -/
theorem rfold_idem_aux (S O : List (Int × LiveUpdateSubscription)) (l : List SnapEntry) :
    ∀ (ns : List (Int × LiveUpdateSubscription)) (nf : List (String × Int))
      (p p' : List (String × PendingSub)),
      (l.map SnapEntry.id).Nodup →
      (∀ e ∈ l, mget ns e.id = none) →
      (∀ e ∈ l, mget p' (subKeyE e) = none) →
      (∀ e ∈ l, mget S e.id
        = mget (reconcileFold O l { newSubs := ns, newFmap := nf, pend := p }).newSubs e.id) →
      (reconcileFold S l { newSubs := ns, newFmap := nf, pend := p' }).newSubs
        = (reconcileFold O l { newSubs := ns, newFmap := nf, pend := p }).newSubs ∧
      (reconcileFold S l { newSubs := ns, newFmap := nf, pend := p' }).newFmap
        = (reconcileFold O l { newSubs := ns, newFmap := nf, pend := p }).newFmap := by
  induction l with
  | nil => intro ns nf p p' _ _ _ _; exact ⟨rfl, rfl⟩
  | cons e t ih =>
    intro ns nf p p' hids hacc hp' hS
    simp only [List.map_cons, List.nodup_cons] at hids
    have hid0 : ∀ e' ∈ t, e'.id ≠ e.id := by
      intro e' he' hc
      exact hids.1 (hc ▸ List.mem_map_of_mem SnapEntry.id he')
    have hSe : mget S e.id
        = mget (reconcileStep O { newSubs := ns, newFmap := nf, pend := p } e).newSubs e.id := by
      rw [hS e (List.mem_cons_self e t)]
      rw [show reconcileFold O (e :: t) { newSubs := ns, newFmap := nf, pend := p }
          = reconcileFold O t (reconcileStep O { newSubs := ns, newFmap := nf, pend := p } e) from rfl]
      rw [rfold_newSubs_ne O t _ e.id hid0]
    have hp'e : mget p' (subKeyE e) = none := hp' e (List.mem_cons_self e t)
    rw [show reconcileFold S (e :: t) { newSubs := ns, newFmap := nf, pend := p' }
        = reconcileFold S t (reconcileStep S { newSubs := ns, newFmap := nf, pend := p' } e) from rfl]
    rw [show reconcileFold O (e :: t) { newSubs := ns, newFmap := nf, pend := p }
        = reconcileFold O t (reconcileStep O { newSubs := ns, newFmap := nf, pend := p } e) from rfl]
    cases hp : mget p (subKeyE e) with
    | some pd =>
      have hstep1 : reconcileStep O { newSubs := ns, newFmap := nf, pend := p } e
          = { newSubs := mset ns e.id (promotedSub e pd (mget O e.id)),
              newFmap := mset nf pd.feedbackId e.id,
              pend := mdel p (subKeyE e) } := by
        simp only [reconcileStep, hp]
      have hSe' : mget S e.id = some (promotedSub e pd (mget O e.id)) := by
        rw [hSe, hstep1]
        exact mget_mset_self _ _ _
      have hstep2 : reconcileStep S { newSubs := ns, newFmap := nf, pend := p' } e
          = { newSubs := mset ns e.id (promotedSub e pd (mget O e.id)),
              newFmap := mset nf pd.feedbackId e.id,
              pend := p' } := by
        simp only [reconcileStep, hp'e, hSe']
        rfl
      rw [hstep1, hstep2]
      apply ih _ _ _ _ hids.2
      · intro e' he'
        rw [mget_mset_ne _ _ _ _ (hid0 e' he')]
        exact hacc e' (List.mem_cons_of_mem e he')
      · intro e' he'
        exact hp' e' (List.mem_cons_of_mem e he')
      · intro e' he'
        have h0 := hS e' (List.mem_cons_of_mem e he')
        rwa [show reconcileFold O (e :: t) { newSubs := ns, newFmap := nf, pend := p }
            = reconcileFold O t (reconcileStep O { newSubs := ns, newFmap := nf, pend := p } e) from rfl,
          hstep1] at h0
    | none =>
      cases hex : mget O e.id with
      | some ex =>
        have hstep1 : reconcileStep O { newSubs := ns, newFmap := nf, pend := p } e
            = { newSubs := mset ns e.id ex,
                newFmap := mset nf ex.feedbackId e.id,
                pend := p } := by
          simp only [reconcileStep, hp, hex]
        have hSe' : mget S e.id = some ex := by
          rw [hSe, hstep1]
          exact mget_mset_self _ _ _
        have hstep2 : reconcileStep S { newSubs := ns, newFmap := nf, pend := p' } e
            = { newSubs := mset ns e.id ex,
                newFmap := mset nf ex.feedbackId e.id,
                pend := p' } := by
          simp only [reconcileStep, hp'e, hSe']
        rw [hstep1, hstep2]
        apply ih _ _ _ _ hids.2
        · intro e' he'
          rw [mget_mset_ne _ _ _ _ (hid0 e' he')]
          exact hacc e' (List.mem_cons_of_mem e he')
        · intro e' he'
          exact hp' e' (List.mem_cons_of_mem e he')
        · intro e' he'
          have h0 := hS e' (List.mem_cons_of_mem e he')
          rwa [show reconcileFold O (e :: t) { newSubs := ns, newFmap := nf, pend := p }
              = reconcileFold O t (reconcileStep O { newSubs := ns, newFmap := nf, pend := p } e) from rfl,
            hstep1] at h0
      | none =>
        have hstep1 : reconcileStep O { newSubs := ns, newFmap := nf, pend := p } e
            = { newSubs := ns, newFmap := nf, pend := p } := by
          simp only [reconcileStep, hp, hex]
        have hSe' : mget S e.id = none := by
          rw [hSe, hstep1]
          exact hacc e (List.mem_cons_self e t)
        have hstep2 : reconcileStep S { newSubs := ns, newFmap := nf, pend := p' } e
            = { newSubs := ns, newFmap := nf, pend := p' } := by
          simp only [reconcileStep, hp'e, hSe']
        rw [hstep1, hstep2]
        apply ih _ _ _ _ hids.2
        · intro e' he'
          exact hacc e' (List.mem_cons_of_mem e he')
        · intro e' he'
          exact hp' e' (List.mem_cons_of_mem e he')
        · intro e' he'
          have h0 := hS e' (List.mem_cons_of_mem e he')
          rwa [show reconcileFold O (e :: t) { newSubs := ns, newFmap := nf, pend := p }
              = reconcileFold O t (reconcileStep O { newSubs := ns, newFmap := nf, pend := p } e) from rfl,
            hstep1] at h0

/-- C3 (amended): applying the same snapshot twice in a row, with no pending
entries created in between, yields the same by-id table and the same
feedback-to-id table as applying it once — provided the snapshot's ids are
pairwise distinct (the counterexample shows the feedback table can differ
when an id is repeated). -/
theorem c3_reconcile_idem (snap : List SnapEntry) (s : DState)
    (hids : (snap.map SnapEntry.id).Nodup) :
    (handleSubscriptionsUpdate snap (handleSubscriptionsUpdate snap s)).subscriptions
      = (handleSubscriptionsUpdate snap s).subscriptions ∧
    (handleSubscriptionsUpdate snap (handleSubscriptionsUpdate snap s)).feedbackIdToSubscriptionId
      = (handleSubscriptionsUpdate snap s).feedbackIdToSubscriptionId := by
  exact rfold_idem_aux
    (reconcileFold s.subscriptions snap
      { newSubs := [], newFmap := [], pend := s.pendingSubscriptions }).newSubs
    s.subscriptions snap [] [] s.pendingSubscriptions
    (reconcileFold s.subscriptions snap
      { newSubs := [], newFmap := [], pend := s.pendingSubscriptions }).pend
    hids (fun _ _ => rfl)
    (fun e he => rfold_pend_mem s.subscriptions snap _ e he)
    (fun _ _ => rfl)

/-- Witness for the amended C3 at a concrete input: replaying `sampleSnap`
over the already-reconciled `reconWitState` changes neither table. -/
theorem c3_reconcile_idem_witness :
    (handleSubscriptionsUpdate sampleSnap (handleSubscriptionsUpdate sampleSnap reconWitState)).subscriptions
      = (handleSubscriptionsUpdate sampleSnap reconWitState).subscriptions ∧
    (handleSubscriptionsUpdate sampleSnap (handleSubscriptionsUpdate sampleSnap reconWitState)).feedbackIdToSubscriptionId
      = (handleSubscriptionsUpdate sampleSnap reconWitState).feedbackIdToSubscriptionId :=
  c3_reconcile_idem sampleSnap reconWitState (by decide)
